import Mathlib

/-!
# Verification of the rent-motorcycle core services

A shallow embedding of the rent pricing/validation core of the
`leandrodaf/rent-motorcycle` repository: `RentService` (renting, paginate),
`RentBudgetService` (expectedReturn) and the `RentRepository` query helpers
(filter, findRentedByPlate), together with proofs of the specified
properties.

The repository snapshot contains the Jest test suites of these services but
not the service implementations themselves, so each operation is modelled
from the specification, with the concrete error messages, status codes and
collaborator-call shapes fixed by the assertions of the in-repo tests.
Dates are modelled at whole-day granularity as integers (epoch days), which
is the granularity at which the core compares and subtracts dates.
-/

/-- Driver license classes; only type `A` authorizes motorcycle rental. -/
inductive DriverLicenseType where
  | A
  | B
deriving DecidableEq, Repr

/-- A registered deliverer: identifier and license type. -/
structure Deliverer where
  id : String
  driverLicenseType : DriverLicenseType
deriving DecidableEq, Repr

/-- A rental plan: a fixed duration in days priced at a daily rate. -/
structure RentPlan where
  days : Nat
  dailyRate : Nat
deriving DecidableEq, Repr

/-- Lifecycle status of a rent record. -/
inductive RentStatus where
  | PROCESSING
  | RENTED
  | RETURNED
deriving DecidableEq, Repr

/-- The rent object built by `RentService.renting` (service layer view). -/
structure Rent where
  deliverer : Deliverer
  startDate : Int
  endDate : Int
  deliveryForecastDate : Int
  plan : RentPlan
  totalCost : Nat
  status : RentStatus
deriving DecidableEq, Repr

/-- A persisted rent record as the repository queries see it: a document
with a deliverer reference, the motorcycle plate and a status. -/
structure RentRecord where
  id : String
  delivererId : String
  plate : String
  status : RentStatus
deriving DecidableEq, Repr

/-- Errors: either a domain `CustomError` (message + HTTP-like status code)
produced by the core itself, or an arbitrary error raised by a
collaborator, carried opaquely so that propagation can be observed. -/
inductive RError where
  | custom (message : String) (status : Nat)
  | external (tag : String)
deriving DecidableEq, Repr

/-- HTTP status code BAD_REQUEST. -/
def BAD_REQUEST : Nat := 400

/-- HTTP status code NOT_FOUND. -/
def NOT_FOUND : Nat := 404

/-- A luxon `DateTime` value, at the whole-day granularity the core uses. -/
structure LuxonDateTime where
  epochDays : Int
deriving DecidableEq, Repr

/-- `DateTime.fromJSDate`: conversion of a JS `Date` (an epoch-day integer
in this model) to a date-time value. -/
def DateTime.fromJSDate (d : Int) : LuxonDateTime := ⟨d⟩

/-- Pagination arguments. -/
structure Paginate where
  page : Nat
  perPage : Nat
deriving DecidableEq, Repr

/-- Filters accepted by the rent listing query. -/
structure RentFilter where
  delivererId : Option String := none
  status : Option RentStatus := none
deriving DecidableEq, Repr

/-- A search query: filters plus pagination, as passed to
`RentService.paginate`. -/
structure FilterQuery where
  filters : Option RentFilter
  paginate : Paginate
deriving DecidableEq, Repr

/-- Collaborators injected into `RentService`
(`IDelivererService.findById`, `IRentPlanRepository.findBy`,
`IRentRepository.create`, `IRentRepository.filter`). `findBy` is a
synchronous lookup returning a plan or none; the others may fail. -/
structure RentDeps where
  findById : String → Except RError Deliverer
  findBy : Int → Option RentPlan
  create : Rent → Except RError Rent
  filter : Option RentFilter → Paginate → Except RError (List RentRecord)

/-- Modelled from the spec: `RentService.renting(delivererId, startDate,
endDate)` (implementation not under `src/`; behaviour fixed by §4.1 of the
spec and the `RentService` test suite). Fetches the deliverer; rejects
license types other than `A`; rejects a start date not strictly after the
current date `now`; looks up a plan by the whole-day span
`endDate - startDate`, rejecting when none exists; otherwise builds the
rent with status PROCESSING, forecast date `endDate` and
`totalCost = plan.dailyRate * plan.days`, and returns the repository's
`create` result. The second component is the list of arguments passed to
`RentRepository.create`, recording the persistence side effect. -/
def RentService.renting (deps : RentDeps) (now : Int) (delivererId : String)
    (startDate endDate : Int) : Except RError Rent × List Rent :=
  match deps.findById delivererId with
  | .error e => (.error e, [])
  | .ok deliverer =>
    if deliverer.driverLicenseType ≠ DriverLicenseType.A then
      (.error (.custom "Deliverer is not authorized to rent a motorcycle."
        BAD_REQUEST), [])
    else if startDate ≤ now then
      (.error (.custom "Reservation dates cannot be today or a past date."
        BAD_REQUEST), [])
    else
      match deps.findBy (endDate - startDate) with
      | none =>
        (.error (.custom "No rental plan available for the specified range dates."
          BAD_REQUEST), [])
      | some plan =>
        let rent : Rent :=
          { deliverer := deliverer
            startDate := startDate
            endDate := endDate
            deliveryForecastDate := endDate
            plan := plan
            totalCost := plan.dailyRate * plan.days
            status := RentStatus.PROCESSING }
        (deps.create rent, [rent])

/-- Modelled from the spec: `RentService.paginate(searchQuery)`
(implementation not under `src/`): delegates verbatim to
`RentRepository.filter(search.filters, search.paginate)` and returns its
result. -/
def RentService.paginate (deps : RentDeps) (search : FilterQuery) :
    Except RError (List RentRecord) :=
  deps.filter search.filters search.paginate

/-- The `{totalCost, totalDaysUsed}` result of a payment calculation
strategy. -/
structure CostResult where
  totalCost : Nat
  totalDaysUsed : Nat
deriving DecidableEq, Repr

/-- The `{totalCost, totalDaysUsed, rent}` result of
`RentBudgetService.expectedReturn`. -/
structure ExpectedReturnResult where
  totalCost : Nat
  totalDaysUsed : Nat
  rent : RentRecord
deriving DecidableEq, Repr

/-- Collaborators injected into `RentBudgetService`
(`IRentRepository.findRentedByPlate` and the pluggable
`PaymentCalculationStrategy.calculateCost`). -/
structure BudgetDeps where
  findRentedByPlate : String → String → Except RError (Option RentRecord)
  calculateCost : RentRecord → LuxonDateTime → Except RError CostResult

/-- Modelled from the spec: `RentBudgetService.expectedReturn(delivererId,
plate, deliveryDate)` (implementation not under `src/`; behaviour fixed by
§4.2 of the spec and the `RentBudgetService` test suite). Looks up the
active rent for the deliverer and plate, failing Not-Found when none
exists; otherwise delegates to the injected strategy, passing the found
rent and the delivery date converted via `DateTime.fromJSDate`, and
returns `{totalCost, totalDaysUsed, rent}`. Collaborator errors pass
through unchanged. -/
def RentBudgetService.expectedReturn (deps : BudgetDeps)
    (delivererId plate : String) (deliveryDate : Int) :
    Except RError ExpectedReturnResult :=
  match deps.findRentedByPlate delivererId plate with
  | .error e => .error e
  | .ok none => .error (.custom "Rent not found" NOT_FOUND)
  | .ok (some rent) =>
    match deps.calculateCost rent (DateTime.fromJSDate deliveryDate) with
    | .error e => .error e
    | .ok cost =>
      .ok { totalCost := cost.totalCost
            totalDaysUsed := cost.totalDaysUsed
            rent := rent }

/-- Does a rent record satisfy a listing filter? An absent field imposes no
constraint, matching the Mongo query semantics of the empty object. -/
def matchesFilter (f : RentFilter) (r : RentRecord) : Bool :=
  (match f.delivererId with
   | none => true
   | some d => r.delivererId == d) &&
  (match f.status with
   | none => true
   | some s => r.status == s)

/-- Pagination of a result list: skip the first `(page - 1) * perPage`
records and take `perPage` of the rest. -/
def paginateList (pg : Paginate) (l : List RentRecord) : List RentRecord :=
  (l.drop ((pg.page - 1) * pg.perPage)).take pg.perPage

/-- Modelled from the spec: `RentRepository.filter(filters, paginate)`
(implementation not under `src/`; the in-repo `RentRepository` test fixes
that a null `filters` argument is normalized to the empty query object
`{}` before `Rent.find` is issued). The database is modelled as the list
of persisted rent records. -/
def RentRepository.filter (db : List RentRecord) (filters : Option RentFilter)
    (pg : Paginate) : List RentRecord :=
  let query := filters.getD {}
  paginateList pg (db.filter (matchesFilter query))

/-- Modelled from the spec: `RentRepository.findRentedByPlate(delivererId,
plate)` (implementation not under `src/`). The in-repo `RentRepository`
test fixes the query shape: `Rent.findOne` is asserted to be called with
exactly `{deliverer: delivererId, status: RENTED}` — the plate argument is
not part of the query — and the resolved document is returned as-is. -/
def RentRepository.findRentedByPlate (db : List RentRecord)
    (delivererId plate : String) : Option RentRecord :=
  db.find? (fun r => r.delivererId == delivererId
    && r.status == RentStatus.RENTED)

/-- The spec's words for `findRentedByPlate` ("find the currently active
rent for a given deliverer and vehicle plate"), stated as a second
definition for comparison with the one modelled from the repository test:
the first RENTED record matching both the deliverer and the plate. -/
def findRentedByPlateSpec (db : List RentRecord)
    (delivererId plate : String) : Option RentRecord :=
  db.find? (fun r => r.delivererId == delivererId
    && r.plate == plate
    && r.status == RentStatus.RENTED)

/-! ## Concrete fixtures used by witnesses and counterexamples -/

/-- A deliverer holding an A-type (motorcycle) license. -/
def delivererA : Deliverer := ⟨"1", DriverLicenseType.A⟩

/-- A deliverer holding a B-type license (not authorized). -/
def delivererB : Deliverer := ⟨"2", DriverLicenseType.B⟩

/-- The 7-day plan at daily rate 3000 from the `RentService` test. -/
def plan7 : RentPlan := ⟨7, 3000⟩

/-- Collaborators for the happy path: the deliverer lookup returns the
authorized deliverer, only the 7-day plan exists, `create` echoes its
argument (as the persistence layer returns the created record). -/
def happyDeps : RentDeps :=
  { findById := fun _ => .ok delivererA
    findBy := fun d => if d = 7 then some plan7 else none
    create := fun r => .ok r
    filter := fun _ _ => .ok [] }

/-- Collaborators whose deliverer lookup returns the unauthorized
B-license deliverer. -/
def unauthorizedDeps : RentDeps :=
  { happyDeps with findById := fun _ => .ok delivererB }

/-!
## Claim theorems

Dates below are epoch-day numbers: 2024-04-30 = 19843 (the mocked "now" of
the `RentService` test), 2024-05-01 = 19844, 2024-05-08 = 19851.
-/

/-- Claim C1: for an authorized deliverer (license type A), a future
start date, and an exact-match plan for the whole-day span
`endDate - startDate`, `renting` builds exactly one rent — status
PROCESSING, `deliveryForecastDate = endDate`,
`totalCost = plan.dailyRate * plan.days` — passes it to
`RentRepository.create` (the trace holds exactly that one call) and
returns the repository's created record. -/
theorem renting_creates_processing_rent (deps : RentDeps) (now : Int)
    (delivererId : String) (startDate endDate : Int) (deliverer : Deliverer)
    (plan : RentPlan)
    (hFind : deps.findById delivererId = .ok deliverer)
    (hAuth : deliverer.driverLicenseType = DriverLicenseType.A)
    (hDate : now < startDate)
    (hPlan : deps.findBy (endDate - startDate) = some plan) :
    RentService.renting deps now delivererId startDate endDate =
      (deps.create
        { deliverer := deliverer
          startDate := startDate
          endDate := endDate
          deliveryForecastDate := endDate
          plan := plan
          totalCost := plan.dailyRate * plan.days
          status := RentStatus.PROCESSING },
       [{ deliverer := deliverer
          startDate := startDate
          endDate := endDate
          deliveryForecastDate := endDate
          plan := plan
          totalCost := plan.dailyRate * plan.days
          status := RentStatus.PROCESSING }]) := by
  simp [RentService.renting, hFind, hAuth, hPlan, not_le.mpr hDate]

/-- Witness for C1: the test scenario — deliverer with type A,
startDate 2024-05-01, endDate 2024-05-08 (7 days), plan {7, 3000} —
creates exactly one rent with totalCost 21000, status PROCESSING and
`deliveryForecastDate = endDate`. -/
theorem renting_creates_processing_rent_witness :
    RentService.renting happyDeps 19843 "1" 19844 19851 =
      (.ok { deliverer := delivererA
             startDate := 19844
             endDate := 19851
             deliveryForecastDate := 19851
             plan := plan7
             totalCost := 21000
             status := RentStatus.PROCESSING },
       [{ deliverer := delivererA
          startDate := 19844
          endDate := 19851
          deliveryForecastDate := 19851
          plan := plan7
          totalCost := 21000
          status := RentStatus.PROCESSING }]) :=
  renting_creates_processing_rent happyDeps 19843 "1" 19844 19851
    delivererA plan7 rfl rfl (by decide) rfl

/-- Claim C2: when the deliverer's license type is not A, `renting` fails
with the Bad-Request error "Deliverer is not authorized to rent a
motorcycle." and `RentRepository.create` is never called (empty trace). -/
theorem renting_rejects_unauthorized (deps : RentDeps) (now : Int)
    (delivererId : String) (startDate endDate : Int) (deliverer : Deliverer)
    (hFind : deps.findById delivererId = .ok deliverer)
    (hAuth : deliverer.driverLicenseType ≠ DriverLicenseType.A) :
    RentService.renting deps now delivererId startDate endDate =
      (.error (.custom "Deliverer is not authorized to rent a motorcycle."
        BAD_REQUEST), []) := by
  simp [RentService.renting, hFind, hAuth]

/-- Witness for C2: the B-license deliverer of the test is rejected and no
create call is issued. -/
theorem renting_rejects_unauthorized_witness :
    RentService.renting unauthorizedDeps 19843 "2" 19844 19851 =
      (.error (.custom "Deliverer is not authorized to rent a motorcycle."
        BAD_REQUEST), []) :=
  renting_rejects_unauthorized unauthorizedDeps 19843 "2" 19844 19851
    delivererB rfl (by decide)

/-- Claim C3: when `startDate` is not strictly after the current date,
`renting` fails with the Bad-Request error "Reservation dates cannot be
today or a past date." regardless of plan availability (`deps.findBy` is
arbitrary here), and no rent is created. The deliverer lookup is assumed
to return an authorized deliverer, since the authorization check precedes
the date check. -/
theorem renting_rejects_past_start (deps : RentDeps) (now : Int)
    (delivererId : String) (startDate endDate : Int) (deliverer : Deliverer)
    (hFind : deps.findById delivererId = .ok deliverer)
    (hAuth : deliverer.driverLicenseType = DriverLicenseType.A)
    (hDate : startDate ≤ now) :
    RentService.renting deps now delivererId startDate endDate =
      (.error (.custom "Reservation dates cannot be today or a past date."
        BAD_REQUEST), []) := by
  simp [RentService.renting, hFind, hAuth, hDate]

/-- Witness for C3: the test scenario — startDate 2024-04-29 with "now"
mocked to 2024-04-30 — is rejected with the date error. -/
theorem renting_rejects_past_start_witness :
    RentService.renting happyDeps 19843 "1" 19842 19848 =
      (.error (.custom "Reservation dates cannot be today or a past date."
        BAD_REQUEST), []) :=
  renting_rejects_past_start happyDeps 19843 "1" 19842 19848
    delivererA rfl rfl (by decide)

/-- Claim C4: the requested duration is the whole-day difference
`endDate - startDate` and the plan is looked up by that exact day count;
when `RentPlanRepository.findBy` returns none for it, `renting` fails with
the Bad-Request error "No rental plan available for the specified range
dates." and `RentRepository.create` is never called (empty trace). -/
theorem renting_rejects_missing_plan (deps : RentDeps) (now : Int)
    (delivererId : String) (startDate endDate : Int) (deliverer : Deliverer)
    (hFind : deps.findById delivererId = .ok deliverer)
    (hAuth : deliverer.driverLicenseType = DriverLicenseType.A)
    (hDate : now < startDate)
    (hPlan : deps.findBy (endDate - startDate) = none) :
    RentService.renting deps now delivererId startDate endDate =
      (.error (.custom "No rental plan available for the specified range dates."
        BAD_REQUEST), []) := by
  simp [RentService.renting, hFind, hAuth, hPlan, not_le.mpr hDate]

/-- Witness for C4: a one-day span has no plan in `happyDeps` (only the
7-day plan exists), so the request is rejected with the plan error and no
create call is issued. -/
theorem renting_rejects_missing_plan_witness :
    RentService.renting happyDeps 19843 "1" 19844 19845 =
      (.error (.custom "No rental plan available for the specified range dates."
        BAD_REQUEST), []) :=
  renting_rejects_missing_plan happyDeps 19843 "1" 19844 19845
    delivererA rfl rfl (by decide) rfl

/-- A RENTED record of deliverer "d" on the motorcycle with plate "AAA". -/
def rentedAAA : RentRecord := ⟨"r1", "d", "AAA", RentStatus.RENTED⟩

/-- Counterexample for C5: the query issued by `findRentedByPlate` does
not constrain the plate (the in-repo test asserts `Rent.findOne` is called
with only the deliverer id and status RENTED). With the database holding a
single RENTED rent of deliverer "d" on plate "AAA", looking up deliverer
"d" with plate "BBB" returns that rent, while the claim — the returned
rent matches both the deliverer and the given plate, none when no such
rent exists — demands none, as `findRentedByPlateSpec` shows. -/
theorem findRentedByPlate_plate_not_filtered :
    RentRepository.findRentedByPlate [rentedAAA] "d" "BBB" = some rentedAAA ∧
    findRentedByPlateSpec [rentedAAA] "d" "BBB" = none ∧
    rentedAAA.plate ≠ "BBB" := by
  refine ⟨rfl, rfl, ?_⟩
  decide

/-- Claim C5 (amended): `findRentedByPlate(delivererId, plate)` returns a
currently active rent of the given deliverer — any record it returns is in
the database, belongs to that deliverer and has status RENTED (the plate
argument does not constrain the query) — and returns none exactly when
the deliverer has no RENTED rent in the database. -/
theorem findRentedByPlate_finds_active_rent (db : List RentRecord)
    (delivererId plate : String) :
    (∀ r : RentRecord,
      RentRepository.findRentedByPlate db delivererId plate = some r →
        r ∈ db ∧ r.delivererId = delivererId ∧ r.status = RentStatus.RENTED) ∧
    (RentRepository.findRentedByPlate db delivererId plate = none ↔
      ∀ r ∈ db, ¬(r.delivererId = delivererId ∧
        r.status = RentStatus.RENTED)) := by
  constructor
  · intro r h
    have hmem : r ∈ db := List.mem_of_find?_eq_some h
    have hp := List.find?_some h
    simp only [Bool.and_eq_true, beq_iff_eq] at hp
    exact ⟨hmem, hp.1, hp.2⟩
  · rw [RentRepository.findRentedByPlate, List.find?_eq_none]
    constructor
    · intro h r hr hc
      have := h r hr
      simp only [Bool.and_eq_true, beq_iff_eq] at this
      exact this ⟨hc.1, hc.2⟩
    · intro h r hr
      simp only [Bool.and_eq_true, beq_iff_eq]
      intro hc
      exact h r hr ⟨hc.1, hc.2⟩

/-- Witness for C5 (amended): on the one-record database, the record
returned for deliverer "d" (whatever plate is passed) is in the database,
belongs to "d" and is RENTED. -/
theorem findRentedByPlate_finds_active_rent_witness :
    rentedAAA ∈ [rentedAAA] ∧ rentedAAA.delivererId = "d" ∧
      rentedAAA.status = RentStatus.RENTED :=
  (findRentedByPlate_finds_active_rent [rentedAAA] "d" "BBB").1
    rentedAAA rfl

/-- The active rent of the `RentBudgetService` test fixture. -/
def rentW : RentRecord := ⟨"123", "del123", "ABC1234", RentStatus.RENTED⟩

/-- Budget collaborators with no active rent: the lookup resolves none and
the strategy returns `{totalCost: 15000, totalDaysUsed: 10}`. -/
def noRentBudgetDeps : BudgetDeps :=
  { findRentedByPlate := fun _ _ => .ok none
    calculateCost := fun _ _ => .ok ⟨15000, 10⟩ }

/-- Budget collaborators whose lookup resolves the active rent `rentW`. -/
def foundRentBudgetDeps : BudgetDeps :=
  { noRentBudgetDeps with findRentedByPlate := fun _ _ => .ok (some rentW) }

/-- Claim C6: when the rent lookup itself succeeds and the strategy does
not fail, `expectedReturn` fails with the Not-Found error "Rent not found"
exactly when `findRentedByPlate` resolved none. -/
theorem expectedReturn_not_found_iff (deps : BudgetDeps)
    (delivererId plate : String) (deliveryDate : Int)
    (found : Option RentRecord)
    (hFind : deps.findRentedByPlate delivererId plate = .ok found)
    (hStrat : ∀ (r : RentRecord) (dt : LuxonDateTime),
      ∃ c : CostResult, deps.calculateCost r dt = .ok c) :
    RentBudgetService.expectedReturn deps delivererId plate deliveryDate =
        .error (.custom "Rent not found" NOT_FOUND) ↔
      found = none := by
  cases found with
  | none => simp [RentBudgetService.expectedReturn, hFind]
  | some rent =>
    obtain ⟨c, hc⟩ := hStrat rent (DateTime.fromJSDate deliveryDate)
    simp [RentBudgetService.expectedReturn, hFind, hc]

/-- Witness for C6: with the lookup of the test fixture resolving none,
`expectedReturn` fails with "Rent not found" (status 404). -/
theorem expectedReturn_not_found_iff_witness :
    RentBudgetService.expectedReturn noRentBudgetDeps "del123" "ABC1234"
        19844 =
      .error (.custom "Rent not found" NOT_FOUND) :=
  (expectedReturn_not_found_iff noRentBudgetDeps "del123" "ABC1234" 19844
    none rfl (fun _ _ => ⟨⟨15000, 10⟩, rfl⟩)).mpr rfl

/-- Claim C7: when a rent is found, `expectedReturn` invokes the injected
strategy with exactly that rent and the delivery date converted via
`DateTime.fromJSDate`, and returns `{totalCost, totalDaysUsed, rent}` with
the cost fields equal to the strategy's output and the found rent. -/
theorem expectedReturn_returns_strategy_output (deps : BudgetDeps)
    (delivererId plate : String) (deliveryDate : Int) (rent : RentRecord)
    (cost : CostResult)
    (hFind : deps.findRentedByPlate delivererId plate = .ok (some rent))
    (hCost : deps.calculateCost rent (DateTime.fromJSDate deliveryDate) =
      .ok cost) :
    RentBudgetService.expectedReturn deps delivererId plate deliveryDate =
      .ok { totalCost := cost.totalCost
            totalDaysUsed := cost.totalDaysUsed
            rent := rent } := by
  simp [RentBudgetService.expectedReturn, hFind, hCost]

/-- Witness for C7: the test scenario — a found rent and a strategy
returning `{totalCost: 15000, totalDaysUsed: 10}` — yields exactly
`{totalCost: 15000, totalDaysUsed: 10, rent}`. -/
theorem expectedReturn_returns_strategy_output_witness :
    RentBudgetService.expectedReturn foundRentBudgetDeps "del123" "ABC1234"
        19844 =
      .ok { totalCost := 15000, totalDaysUsed := 10, rent := rentW } :=
  expectedReturn_returns_strategy_output foundRentBudgetDeps "del123"
    "ABC1234" 19844 rentW ⟨15000, 10⟩ rfl rfl

/-- Claim C8: `paginate(searchQuery)` forwards `search.filters` and
`search.paginate` unchanged to `RentRepository.filter` and returns exactly
the repository's result — in particular `.ok l` for whatever list `l`
(the empty list included) the repository produces, and the repository's
error otherwise. -/
theorem paginate_refines_repository_filter (deps : RentDeps)
    (search : FilterQuery) :
    RentService.paginate deps search =
      deps.filter search.filters search.paginate := rfl

/-- Collaborators whose deliverer lookup rejects with a database error. -/
def findByIdFailingDeps : RentDeps :=
  { happyDeps with findById := fun _ => .error (.external "Database error") }

/-- Collaborators whose `create` and `filter` reject with a database
error, while lookup collaborators behave as in the happy path. -/
def repoFailingDeps : RentDeps :=
  { happyDeps with
    create := fun _ => .error (.external "Database error")
    filter := fun _ _ => .error (.external "Database error") }

/-- Budget collaborators whose rent lookup rejects with a database
error. -/
def lookupFailingBudgetDeps : BudgetDeps :=
  { noRentBudgetDeps with
    findRentedByPlate := fun _ _ => .error (.external "Database error") }

/-- Budget collaborators whose strategy fails after the rent is found. -/
def strategyFailingBudgetDeps : BudgetDeps :=
  { foundRentBudgetDeps with
    calculateCost := fun _ _ => .error (.external "Strategy error") }

/-- Claim C9: collaborator-raised errors propagate unchanged: (1) a
deliverer-lookup error from `renting`, (2) a `create` error from
`renting`'s persistence step (the create call having been issued on the
built rent), (3) a repository `filter` error from `paginate`, (4) a
`findRentedByPlate` error from `expectedReturn`, and (5) a strategy error
from `expectedReturn` — each surfaces as the caller's result without
wrapping or recovery. -/
theorem collaborator_errors_propagate :
    (∀ (deps : RentDeps) (now : Int) (delivererId : String)
        (startDate endDate : Int) (err : RError),
      deps.findById delivererId = .error err →
      RentService.renting deps now delivererId startDate endDate =
        (.error err, [])) ∧
    (∀ (deps : RentDeps) (now : Int) (delivererId : String)
        (startDate endDate : Int) (deliverer : Deliverer) (plan : RentPlan)
        (err : RError),
      deps.findById delivererId = .ok deliverer →
      deliverer.driverLicenseType = DriverLicenseType.A →
      now < startDate →
      deps.findBy (endDate - startDate) = some plan →
      deps.create
        { deliverer := deliverer
          startDate := startDate
          endDate := endDate
          deliveryForecastDate := endDate
          plan := plan
          totalCost := plan.dailyRate * plan.days
          status := RentStatus.PROCESSING } = .error err →
      (RentService.renting deps now delivererId startDate endDate).1 =
        .error err) ∧
    (∀ (deps : RentDeps) (search : FilterQuery) (err : RError),
      deps.filter search.filters search.paginate = .error err →
      RentService.paginate deps search = .error err) ∧
    (∀ (deps : BudgetDeps) (delivererId plate : String)
        (deliveryDate : Int) (err : RError),
      deps.findRentedByPlate delivererId plate = .error err →
      RentBudgetService.expectedReturn deps delivererId plate deliveryDate =
        .error err) ∧
    (∀ (deps : BudgetDeps) (delivererId plate : String)
        (deliveryDate : Int) (rent : RentRecord) (err : RError),
      deps.findRentedByPlate delivererId plate = .ok (some rent) →
      deps.calculateCost rent (DateTime.fromJSDate deliveryDate) =
        .error err →
      RentBudgetService.expectedReturn deps delivererId plate deliveryDate =
        .error err) := by
  refine ⟨?_, ?_, ?_, ?_, ?_⟩
  · intro deps now delivererId startDate endDate err hFind
    simp [RentService.renting, hFind]
  · intro deps now delivererId startDate endDate deliverer plan err
      hFind hAuth hDate hPlan hCreate
    simp [RentService.renting, hFind, hAuth, hPlan, hCreate,
      not_le.mpr hDate]
  · intro deps search err hFilter
    simpa [RentService.paginate] using hFilter
  · intro deps delivererId plate deliveryDate err hFind
    simp [RentBudgetService.expectedReturn, hFind]
  · intro deps delivererId plate deliveryDate rent err hFind hCost
    simp [RentBudgetService.expectedReturn, hFind, hCost]

/-- Witness for C9: each of the five propagation cases at a concrete
input — the collaborator's error surfaces unchanged from `renting`,
`paginate` and `expectedReturn`. -/
theorem collaborator_errors_propagate_witness :
    RentService.renting findByIdFailingDeps 19843 "1" 19844 19851 =
      (.error (.external "Database error"), []) ∧
    (RentService.renting repoFailingDeps 19843 "1" 19844 19851).1 =
      .error (.external "Database error") ∧
    RentService.paginate repoFailingDeps ⟨none, ⟨1, 10⟩⟩ =
      .error (.external "Database error") ∧
    RentBudgetService.expectedReturn lookupFailingBudgetDeps "del123"
        "ABC1234" 19844 =
      .error (.external "Database error") ∧
    RentBudgetService.expectedReturn strategyFailingBudgetDeps "del123"
        "ABC1234" 19844 =
      .error (.external "Strategy error") :=
  ⟨collaborator_errors_propagate.1 findByIdFailingDeps 19843 "1" 19844
      19851 (.external "Database error") rfl,
   collaborator_errors_propagate.2.1 repoFailingDeps 19843 "1" 19844 19851
      delivererA plan7 (.external "Database error") rfl rfl (by decide)
      rfl rfl,
   collaborator_errors_propagate.2.2.1 repoFailingDeps ⟨none, ⟨1, 10⟩⟩
      (.external "Database error") rfl,
   collaborator_errors_propagate.2.2.2.1 lookupFailingBudgetDeps "del123"
      "ABC1234" 19844 (.external "Database error") rfl,
   collaborator_errors_propagate.2.2.2.2 strategyFailingBudgetDeps "del123"
      "ABC1234" 19844 rentW (.external "Strategy error") rfl rfl⟩

/-- Claim C10: `RentRepository.filter` with an absent (null) filters
argument behaves as with the empty query object, and returns the
unfiltered paginated listing of the database. -/
theorem filter_null_filters_unfiltered (db : List RentRecord)
    (pg : Paginate) :
    RentRepository.filter db none pg =
      RentRepository.filter db (some {}) pg ∧
    RentRepository.filter db none pg = paginateList pg db := by
  refine ⟨rfl, ?_⟩
  have hall : db.filter (matchesFilter {}) = db := by
    induction db with
    | nil => rfl
    | cons r rest ih =>
      simp [List.filter, matchesFilter, ih]
  simp [RentRepository.filter, hall]
